import Mathlib

/-!
# Route 53 registry adapter (`route53/route53.go`)

A shallow embedding of the adapter's `Register`, `Deregister`, `Refresh`,
`Services` and `Ping` methods.  The remote DNS service is an oracle carried by
the adapter (its `route53` field); every method returns the adapter after the
call, the remote calls it performed in order, the lines it logged and its Go
return value.

Conventions of the embedding:
* a Go `error` is `Option Error`, `none` being `nil`;
* `strings.Compare(a, b) == 0` is string equality;
* `fmt.Sprintf` with `%s` and `%d` verbs is string concatenation, `%d` being
  the signed decimal rendering of the integer;
* `Name` and `Value` are required members of the Route 53 shapes, present in
  every listed record set and record, so dereferencing them is total;
* Go's `int` carries no arithmetic here and is an `Int`.
-/

namespace Registrator

/-- A Go `error`, identified by its message. -/
abbrev Error := String

/-- Modelled from the spec: the `bridge.Service` type declaration is not part of
the adapter's file; the adapter reads the four fields the spec lists for a
service (name, IP, port, TTL). -/
structure Service where
  Name : String
  IP : String
  Port : Int
  TTL : Int
deriving DecidableEq, Repr

/-- SDK shape `route53.ResourceRecord`. -/
structure ResourceRecord where
  Value : String
deriving DecidableEq, Repr

/-- SDK shape `route53.ResourceRecordSet`, with the members the adapter reads or writes. -/
structure ResourceRecordSet where
  Name : String
  Type_ : String
  ResourceRecords : List ResourceRecord
  TTL : Int
deriving DecidableEq, Repr

/-- SDK shape `route53.Change`. -/
structure Change where
  Action : String
  ResourceRecordSet : ResourceRecordSet
deriving DecidableEq, Repr

/-- SDK shape `route53.ChangeBatch`. -/
structure ChangeBatch where
  Changes : List Change
deriving DecidableEq, Repr

/-- SDK shape `route53.ChangeResourceRecordSetsInput`. -/
structure ChangeResourceRecordSetsInput where
  HostedZoneId : String
  ChangeBatch : ChangeBatch
deriving DecidableEq, Repr

/-- SDK shape `route53.ListResourceRecordSetsInput`. -/
structure ListResourceRecordSetsInput where
  HostedZoneId : String
  StartRecordName : String
  StartRecordType : String
  MaxItems : String
deriving DecidableEq, Repr

/-- SDK shape `route53.ListResourceRecordSetsOutput`. -/
structure ListResourceRecordSetsOutput where
  ResourceRecordSets : List ResourceRecordSet
deriving DecidableEq, Repr

/-- The SDK client `*route53.Route53` as an oracle: what the remote answers to a
list call (`resp, err`) and the error of a change call (`_, err`). -/
structure Route53 where
  ListResourceRecordSets : ListResourceRecordSetsInput → Except Error ListResourceRecordSetsOutput
  ChangeResourceRecordSets : ChangeResourceRecordSetsInput → Option Error

/-- The adapter `Route53Adapter`. -/
structure Route53Adapter where
  hostedZoneId : String
  dnsName : String
  route53 : Route53

/-- One remote call, with the request it carried. -/
inductive Call where
  | list (input : ListResourceRecordSetsInput)
  | change (input : ChangeResourceRecordSetsInput)
deriving DecidableEq, Repr

/-- What a method leaves behind: the adapter, the remote calls in order, the
logged lines and the Go return value. -/
structure Outcome (α : Type) where
  adapter : Route53Adapter
  calls : List Call
  logs : List String
  ret : α

/-- How the record-copying loops of `Register` end: by `return nil` from inside
the loop, or by falling through with the `changeSet` built so far. -/
inductive Scan where
  | returned
  | done (changeSet : List ResourceRecord)
deriving DecidableEq, Repr

/-- The name looked for in the listing, `fmt.Sprintf("%s.%s.", service.Name, r.dnsName)`. -/
def currentName (r : Route53Adapter) (service : Service) : String :=
  service.Name ++ "." ++ r.dnsName ++ "."

/-- The name written in a change, `fmt.Sprintf("%s.%s", service.Name, r.dnsName)`. -/
def changeName (r : Route53Adapter) (service : Service) : String :=
  service.Name ++ "." ++ r.dnsName

/-- The record value of a service, `fmt.Sprintf("1 1 %d %s.", service.Port, service.IP)`. -/
def recordSet (service : Service) : String :=
  "1 1 " ++ toString service.Port ++ " " ++ service.IP ++ "."

/-- The request of the list call both `Register` and `Deregister` start with. -/
def listInput (r : Route53Adapter) (service : Service) : ListResourceRecordSetsInput :=
  { HostedZoneId := r.hostedZoneId
    StartRecordName := currentName r service
    StartRecordType := "SRV"
    MaxItems := "1000" }

/-- The inner loop of `Register` over `record.ResourceRecords`. -/
def registerRecords (recordSet : String) :
    List ResourceRecord → List ResourceRecord → Scan
  | [], changeSet => .done changeSet
  | r :: rest, changeSet =>
    if r.Value = recordSet then .returned
    else registerRecords recordSet rest (changeSet ++ [r])

/-- The outer loop of `Register` over `resp.ResourceRecordSets`; the first record
set with the wanted name is copied and the loop breaks. -/
def registerSets (currentName recordSet : String) :
    List ResourceRecordSet → List ResourceRecord → Scan
  | [], changeSet => .done changeSet
  | record :: rest, changeSet =>
    if record.Name = currentName then
      registerRecords recordSet record.ResourceRecords changeSet
    else registerSets currentName recordSet rest changeSet

/-- The method `Register`. -/
def Route53Adapter.Register (r : Route53Adapter) (service : Service) :
    Outcome (Option Error) :=
  let currentName := currentName r service
  let listCall := listInput r service
  match r.route53.ListResourceRecordSets listCall with
  | .error _ => { adapter := r, calls := [.list listCall], logs := [], ret := none }
  | .ok resp =>
    let recordSet := recordSet service
    match registerSets currentName recordSet resp.ResourceRecordSets [] with
    | .returned =>
      { adapter := r, calls := [.list listCall],
        logs := ["Record \x27" ++ recordSet ++ "\x27 already present\n"], ret := none }
    | .done changeSet =>
      let changeSet := changeSet ++ [{ Value := recordSet }]
      let changeCall : ChangeResourceRecordSetsInput :=
        { HostedZoneId := r.hostedZoneId
          ChangeBatch := { Changes := [
            { Action := "UPSERT"
              ResourceRecordSet :=
                { Name := changeName r service
                  Type_ := "SRV"
                  ResourceRecords := changeSet
                  TTL := service.TTL } }] } }
      { adapter := r, calls := [.list listCall, .change changeCall], logs := [],
        ret := r.route53.ChangeResourceRecordSets changeCall }

/-- The change request `Deregister` sends when the matching record set holds the
service's value alone. -/
def deleteInput (r : Route53Adapter) (service : Service) : ChangeResourceRecordSetsInput :=
  { HostedZoneId := r.hostedZoneId
    ChangeBatch := { Changes := [
      { Action := "DELETE"
        ResourceRecordSet :=
          { Name := changeName r service
            Type_ := "SRV"
            ResourceRecords := [{ Value := "1 1 " ++ toString service.Port ++ " " ++ service.IP ++ "." }]
            TTL := service.TTL } }] } }

/-- The change request `Deregister` sends with the remaining records. -/
def upsertInput (r : Route53Adapter) (service : Service)
    (changeSet : List ResourceRecord) : ChangeResourceRecordSetsInput :=
  { HostedZoneId := r.hostedZoneId
    ChangeBatch := { Changes := [
      { Action := "UPSERT"
        ResourceRecordSet :=
          { Name := changeName r service
            Type_ := "SRV"
            ResourceRecords := changeSet
            TTL := service.TTL } }] } }

/-- The inner loop of `Deregister` over `record.ResourceRecords`, at index `i`
with `rest` still to visit: the change request sent at the first record holding
the service's value, or `none` when the loop ends without one.
`append(record.ResourceRecords[:i], record.ResourceRecords[i+1:]...)` is the
records before index `i` followed by those after it. -/
def deregisterRecords (r : Route53Adapter) (service : Service) (recordSet : String)
    (record : ResourceRecordSet) :
    Nat → List ResourceRecord → Option ChangeResourceRecordSetsInput
  | _, [] => none
  | i, res :: rest =>
    if res.Value = recordSet then
      if record.ResourceRecords.length = 1 then
        some (deleteInput r service)
      else
        let changeSet := record.ResourceRecords.take i ++ record.ResourceRecords.drop (i + 1)
        some (upsertInput r service changeSet)
    else deregisterRecords r service recordSet record (i + 1) rest

/-- The outer loop of `Deregister` over `resp.ResourceRecordSets`; only the first
record set with the wanted name is visited. -/
def deregisterSets (r : Route53Adapter) (service : Service) (currentName recordSet : String) :
    List ResourceRecordSet → Option ChangeResourceRecordSetsInput
  | [] => none
  | record :: rest =>
    if record.Name = currentName then
      deregisterRecords r service recordSet record 0 record.ResourceRecords
    else deregisterSets r service currentName recordSet rest

/-- The method `Deregister`. -/
def Route53Adapter.Deregister (r : Route53Adapter) (service : Service) :
    Outcome (Option Error) :=
  let currentName := currentName r service
  let listCall := listInput r service
  match r.route53.ListResourceRecordSets listCall with
  | .error _ => { adapter := r, calls := [.list listCall], logs := [], ret := none }
  | .ok resp =>
    let recordSet := recordSet service
    match deregisterSets r service currentName recordSet resp.ResourceRecordSets with
    | some changeCall =>
      { adapter := r, calls := [.list listCall, .change changeCall], logs := [],
        ret := r.route53.ChangeResourceRecordSets changeCall }
    | none => { adapter := r, calls := [.list listCall], logs := [], ret := none }

/-- The method `Ping`. -/
def Route53Adapter.Ping (r : Route53Adapter) : Outcome (Option Error) :=
  { adapter := r, calls := [], logs := [], ret := none }

/-- The method `Refresh`. -/
def Route53Adapter.Refresh (r : Route53Adapter) (_service : Service) : Outcome (Option Error) :=
  { adapter := r, calls := [], logs := [], ret := none }

/-- The method `Services`. -/
def Route53Adapter.Services (r : Route53Adapter) : Outcome (List Service × Option Error) :=
  { adapter := r, calls := [], logs := [], ret := ([], none) }

/-! ## Concrete remotes, adapters and services used to exercise the theorems -/

/-- A remote that answers every list call with `sets` and every change call with `changeErr`. -/
def okRemote (sets : List ResourceRecordSet) (changeErr : Option Error) : Route53 :=
  { ListResourceRecordSets := fun _ => .ok { ResourceRecordSets := sets }
    ChangeResourceRecordSets := fun _ => changeErr }

/-- A remote whose list call fails. -/
def downRemote : Route53 :=
  { ListResourceRecordSets := fun _ => .error "RequestError: send request failed"
    ChangeResourceRecordSets := fun _ => none }

/-- An adapter for zone `Z1` and domain `example.com` in front of `remote`. -/
def zoneAdapter (remote : Route53) : Route53Adapter :=
  { hostedZoneId := "Z1", dnsName := "example.com", route53 := remote }

/-- The service `web` at `10.0.0.5:8080` with TTL 60. -/
def web : Service := { Name := "web", IP := "10.0.0.5", Port := 8080, TTL := 60 }

/-- A listed SRV record set named `name` holding `values`, with TTL 300. -/
def srvSet (name : String) (values : List String) : ResourceRecordSet :=
  { Name := name, Type_ := "SRV", ResourceRecords := values.map (fun v => { Value := v }), TTL := 300 }

/-- A service whose IP text holds a space. -/
def spacedService : Service := { Name := "web", IP := "10.0.0.5 x", Port := 8080, TTL := 60 }

/-! ## The remote record set under a name

Route 53 is not part of the adapter; what follows is its contract for the one
record set the adapter manages, as the adapter itself relies on it: a record set
written under `name` is listed back under `name.` (the adapter writes
`changeName` and looks for `currentName`), an UPSERT creates the record set or
replaces it with the values sent, and a DELETE removes the record set when the
values sent are the stored ones and otherwise leaves it. -/

/-- The record set stored under `name` after the remote applied the change `c` to
`stored` (`none` when no record set is stored under that name). -/
def applyChange (name : String) (stored : Option ResourceRecordSet) (c : Change) :
    Option ResourceRecordSet :=
  let sent : ResourceRecordSet :=
    { c.ResourceRecordSet with Name := c.ResourceRecordSet.Name ++ "." }
  if sent.Name = name then
    if c.Action = "UPSERT" then some sent
    else if c.Action = "DELETE" then (if stored = some sent then none else stored)
    else stored
  else stored

/-- The record set stored under `name` after the remote served `calls` in order:
a list call leaves it, a change call applies its changes one after the other. -/
def applyCalls (name : String) (stored : Option ResourceRecordSet) (calls : List Call) :
    Option ResourceRecordSet :=
  calls.foldl
    (fun st call =>
      match call with
      | .list _ => st
      | .change input => input.ChangeBatch.Changes.foldl (applyChange name) st)
    stored

/-- A remote holding the record sets `others` and, after them, the record set
`stored`; it lists them all and accepts every change. -/
def storeRemote (others : List ResourceRecordSet) (stored : Option ResourceRecordSet) :
    Route53 :=
  { ListResourceRecordSets := fun _ => .ok { ResourceRecordSets := others ++ stored.toList }
    ChangeResourceRecordSets := fun _ => none }

/-- The record set stored under the service's name once `Register` ran against a
remote holding `others` and `stored`. -/
def afterRegister (r : Route53Adapter) (service : Service) (others : List ResourceRecordSet)
    (stored : Option ResourceRecordSet) : Option ResourceRecordSet :=
  applyCalls (currentName r service) stored
    ({ r with route53 := storeRemote others stored }.Register service).calls

/-- The record set stored under the service's name once `Deregister` ran against a
remote holding `others` and `stored`. -/
def afterDeregister (r : Route53Adapter) (service : Service) (others : List ResourceRecordSet)
    (stored : Option ResourceRecordSet) : Option ResourceRecordSet :=
  applyCalls (currentName r service) stored
    ({ r with route53 := storeRemote others stored }.Deregister service).calls

/-! ## Loop lemmas -/

theorem registerRecords_fresh (v : String) :
    ∀ (recs cs : List ResourceRecord), (∀ x ∈ recs, x.Value ≠ v) →
      registerRecords v recs cs = .done (cs ++ recs) := by
  intro recs
  induction recs with
  | nil => intro cs _; simp [registerRecords]
  | cons x rest ih =>
    intro cs h
    have hx : x.Value ≠ v := h x (List.mem_cons_self _ _)
    have hrest : ∀ y ∈ rest, y.Value ≠ v := fun y hy => h y (List.mem_cons_of_mem _ hy)
    simp [registerRecords, hx, ih (cs ++ [x]) hrest]

theorem registerRecords_present (v : String) :
    ∀ (recs cs : List ResourceRecord), (∃ x ∈ recs, x.Value = v) →
      registerRecords v recs cs = .returned := by
  intro recs
  induction recs with
  | nil => intro cs h; simp at h
  | cons x rest ih =>
    intro cs h
    by_cases hx : x.Value = v
    · simp [registerRecords, hx]
    · have hrest : ∃ y ∈ rest, y.Value = v := by
        obtain ⟨y, hy, hyv⟩ := h
        rcases List.mem_cons.mp hy with rfl | hy
        · exact absurd hyv hx
        · exact ⟨y, hy, hyv⟩
      simp [registerRecords, hx, ih (cs ++ [x]) hrest]

theorem registerSets_find (cur v : String) :
    ∀ (sets : List ResourceRecordSet) (cs : List ResourceRecord),
      registerSets cur v sets cs =
        match sets.find? (fun x => decide (x.Name = cur)) with
        | none => .done cs
        | some rs => registerRecords v rs.ResourceRecords cs := by
  intro sets
  induction sets with
  | nil => intro cs; simp [registerSets]
  | cons x rest ih =>
    intro cs
    by_cases hx : x.Name = cur
    · simp [registerSets, hx]
    · simp [registerSets, hx, ih cs, List.find?_cons]

theorem deregisterRecords_absent (r : Route53Adapter) (service : Service) (v : String)
    (record : ResourceRecordSet) :
    ∀ (rest : List ResourceRecord) (i : Nat), (∀ x ∈ rest, x.Value ≠ v) →
      deregisterRecords r service v record i rest = none := by
  intro rest
  induction rest with
  | nil => intro i _; simp [deregisterRecords]
  | cons x rest ih =>
    intro i h
    have hx : x.Value ≠ v := h x (List.mem_cons_self _ _)
    have hrest : ∀ y ∈ rest, y.Value ≠ v := fun y hy => h y (List.mem_cons_of_mem _ hy)
    simp [deregisterRecords, hx, ih (i + 1) hrest]

theorem deregisterRecords_hit (r : Route53Adapter) (service : Service) (v : String)
    (record : ResourceRecordSet) (x : ResourceRecord) (post : List ResourceRecord)
    (hx : x.Value = v) :
    ∀ (mid : List ResourceRecord) (i : Nat), (∀ y ∈ mid, y.Value ≠ v) →
      deregisterRecords r service v record i (mid ++ x :: post) =
        some (if record.ResourceRecords.length = 1 then deleteInput r service
          else upsertInput r service
            (record.ResourceRecords.take (i + mid.length) ++
              record.ResourceRecords.drop (i + mid.length + 1))) := by
  intro mid
  induction mid with
  | nil =>
    intro i _
    simp only [deregisterRecords, hx, if_true, List.nil_append, List.length_nil, Nat.add_zero]
    split <;> rfl
  | cons y mid ih =>
    intro i h
    have hy : y.Value ≠ v := h y (List.mem_cons_self _ _)
    have hmid : ∀ z ∈ mid, z.Value ≠ v := fun z hz => h z (List.mem_cons_of_mem _ hz)
    simp [deregisterRecords, hy, ih (i + 1) hmid]
    split <;> simp [Nat.add_assoc, Nat.add_comm 1]

theorem deregisterSets_find (r : Route53Adapter) (service : Service) (cur v : String) :
    ∀ (sets : List ResourceRecordSet),
      deregisterSets r service cur v sets =
        match sets.find? (fun x => decide (x.Name = cur)) with
        | none => none
        | some rs => deregisterRecords r service v rs 0 rs.ResourceRecords := by
  intro sets
  induction sets with
  | nil => simp [deregisterSets]
  | cons x rest ih =>
    by_cases hx : x.Name = cur
    · simp [deregisterSets, hx]
    · simp [deregisterSets, hx, ih, List.find?_cons]

theorem split_at_first (v : String) :
    ∀ (l : List ResourceRecord), (∃ x ∈ l, x.Value = v) →
      ∃ pre x post, l = pre ++ x :: post ∧ (∀ y ∈ pre, y.Value ≠ v) ∧ x.Value = v := by
  intro l
  induction l with
  | nil => intro h; simp at h
  | cons a rest ih =>
    intro h
    by_cases ha : a.Value = v
    · exact ⟨[], a, rest, rfl, by simp, ha⟩
    · have hrest : ∃ y ∈ rest, y.Value = v := by
        obtain ⟨y, hy, hyv⟩ := h
        rcases List.mem_cons.mp hy with rfl | hy
        · exact absurd hyv ha
        · exact ⟨y, hy, hyv⟩
      obtain ⟨pre, x, post, hl, hpre, hx⟩ := ih hrest
      refine ⟨a :: pre, x, post, by simp [hl], ?_, hx⟩
      intro y hy
      rcases List.mem_cons.mp hy with rfl | hy
      · exact ha
      · exact hpre y hy

/-! ## The methods after a successful listing -/

theorem Register_listed (r : Route53Adapter) (service : Service) (sets : List ResourceRecordSet)
    (hlist : r.route53.ListResourceRecordSets (listInput r service) =
      .ok { ResourceRecordSets := sets }) :
    r.Register service =
      match sets.find? (fun x => decide (x.Name = currentName r service)) with
      | none =>
        { adapter := r
          calls := [.list (listInput r service),
            .change (upsertInput r service [{ Value := recordSet service }])]
          logs := []
          ret := r.route53.ChangeResourceRecordSets
            (upsertInput r service [{ Value := recordSet service }]) }
      | some rs =>
        match registerRecords (recordSet service) rs.ResourceRecords [] with
        | .returned =>
          { adapter := r, calls := [.list (listInput r service)],
            logs := ["Record \x27" ++ recordSet service ++ "\x27 already present\n"],
            ret := none }
        | .done changeSet =>
          { adapter := r
            calls := [.list (listInput r service),
              .change (upsertInput r service (changeSet ++ [{ Value := recordSet service }]))]
            logs := []
            ret := r.route53.ChangeResourceRecordSets
              (upsertInput r service (changeSet ++ [{ Value := recordSet service }])) } := by
  unfold Route53Adapter.Register
  simp only [hlist, registerSets_find]
  cases sets.find? (fun x => decide (x.Name = currentName r service)) with
  | none => simp [upsertInput]
  | some rs =>
    simp only
    cases registerRecords (recordSet service) rs.ResourceRecords [] <;> simp [upsertInput]

theorem Deregister_listed (r : Route53Adapter) (service : Service) (sets : List ResourceRecordSet)
    (hlist : r.route53.ListResourceRecordSets (listInput r service) =
      .ok { ResourceRecordSets := sets }) :
    r.Deregister service =
      match (sets.find? (fun x => decide (x.Name = currentName r service))).bind
          (fun rs => deregisterRecords r service (recordSet service) rs 0 rs.ResourceRecords) with
      | some changeCall =>
        { adapter := r, calls := [.list (listInput r service), .change changeCall], logs := [],
          ret := r.route53.ChangeResourceRecordSets changeCall }
      | none => { adapter := r, calls := [.list (listInput r service)], logs := [], ret := none } := by
  unfold Route53Adapter.Deregister
  simp only [hlist, deregisterSets_find]
  cases sets.find? (fun x => decide (x.Name = currentName r service)) <;> simp

theorem Register_list_failed (r : Route53Adapter) (service : Service) (e : Error)
    (hlist : r.route53.ListResourceRecordSets (listInput r service) = .error e) :
    r.Register service =
      { adapter := r, calls := [.list (listInput r service)], logs := [], ret := none } := by
  unfold Route53Adapter.Register
  simp only [hlist]

theorem Deregister_list_failed (r : Route53Adapter) (service : Service) (e : Error)
    (hlist : r.route53.ListResourceRecordSets (listInput r service) = .error e) :
    r.Deregister service =
      { adapter := r, calls := [.list (listInput r service)], logs := [], ret := none } := by
  unfold Route53Adapter.Deregister
  simp only [hlist]

theorem take_drop_split (pre post : List ResourceRecord) (x : ResourceRecord) :
    (pre ++ x :: post).take pre.length ++ (pre ++ x :: post).drop (pre.length + 1) =
      pre ++ post := by
  simp

/-! ## Register -/

/-- C1: after a successful listing in which no record of the first record set
named `<service.Name>.<dnsName>.` has the service's value, `Register` performs the
list call and then exactly one change call carrying exactly one change: an UPSERT
of type SRV for `<service.Name>.<dnsName>` with TTL `service.TTL`, whose records
are those of that first record set (none when no listed record set has the name)
in their order, followed by the service's value. -/
theorem Register_merges (r : Route53Adapter) (service : Service)
    (sets : List ResourceRecordSet)
    (hlist : r.route53.ListResourceRecordSets (listInput r service) =
      .ok { ResourceRecordSets := sets })
    (hnew : ∀ x ∈ ((sets.find? (fun s => decide (s.Name = currentName r service))).map
        (fun rs => rs.ResourceRecords)).getD [], x.Value ≠ recordSet service) :
    (r.Register service).calls =
      [.list (listInput r service),
       .change
        { HostedZoneId := r.hostedZoneId
          ChangeBatch := { Changes := [
            { Action := "UPSERT"
              ResourceRecordSet :=
                { Name := service.Name ++ "." ++ r.dnsName
                  Type_ := "SRV"
                  ResourceRecords :=
                    ((sets.find? (fun s => decide (s.Name = currentName r service))).map
                      (fun rs => rs.ResourceRecords)).getD [] ++
                      [{ Value := recordSet service }]
                  TTL := service.TTL } }] } }] := by
  rw [Register_listed r service sets hlist]
  cases hfind : sets.find? (fun s => decide (s.Name = currentName r service)) with
  | none => simp [upsertInput, changeName]
  | some rs =>
    rw [hfind] at hnew
    simp only [Option.map_some', Option.getD_some] at hnew ⊢
    rw [registerRecords_fresh (recordSet service) rs.ResourceRecords [] hnew]
    simp [upsertInput, changeName]

/-- C1 at a concrete input: the listed record set of `web.example.com.` holds one
other value, which is kept in front of the new one. -/
theorem Register_merges_witness :
    (zoneAdapter (okRemote [srvSet "db.example.com." ["1 1 5432 10.0.0.9."],
        srvSet "web.example.com." ["1 1 80 10.0.0.1."]] none)).route53.ListResourceRecordSets
        (listInput (zoneAdapter (okRemote [srvSet "db.example.com." ["1 1 5432 10.0.0.9."],
          srvSet "web.example.com." ["1 1 80 10.0.0.1."]] none)) web) =
      .ok { ResourceRecordSets := [srvSet "db.example.com." ["1 1 5432 10.0.0.9."],
        srvSet "web.example.com." ["1 1 80 10.0.0.1."]] } ∧
    ((zoneAdapter (okRemote [srvSet "db.example.com." ["1 1 5432 10.0.0.9."],
        srvSet "web.example.com." ["1 1 80 10.0.0.1."]] none)).Register web).calls =
      [.list { HostedZoneId := "Z1", StartRecordName := "web.example.com.",
               StartRecordType := "SRV", MaxItems := "1000" },
       .change
        { HostedZoneId := "Z1"
          ChangeBatch := { Changes := [
            { Action := "UPSERT"
              ResourceRecordSet :=
                { Name := "web.example.com"
                  Type_ := "SRV"
                  ResourceRecords := [{ Value := "1 1 80 10.0.0.1." },
                    { Value := "1 1 8080 10.0.0.5." }]
                  TTL := 60 } }] } }] :=
  ⟨rfl, Register_merges
    (zoneAdapter (okRemote [srvSet "db.example.com." ["1 1 5432 10.0.0.9."],
      srvSet "web.example.com." ["1 1 80 10.0.0.1."]] none)) web
    [srvSet "db.example.com." ["1 1 5432 10.0.0.9."],
      srvSet "web.example.com." ["1 1 80 10.0.0.1."]] rfl (by decide)⟩

/-- C2: after a successful listing in which the first record set named
`<service.Name>.<dnsName>.` holds a record with the service's value, `Register`
performs the list call only, issues no change request and returns nil. -/
theorem Register_deduplicates (r : Route53Adapter) (service : Service)
    (sets : List ResourceRecordSet) (rs : ResourceRecordSet)
    (hlist : r.route53.ListResourceRecordSets (listInput r service) =
      .ok { ResourceRecordSets := sets })
    (hfirst : sets.find? (fun s => decide (s.Name = currentName r service)) = some rs)
    (hdup : ∃ x ∈ rs.ResourceRecords, x.Value = recordSet service) :
    (r.Register service).calls = [.list (listInput r service)] ∧
      (r.Register service).ret = none := by
  rw [Register_listed r service sets hlist, hfirst]
  simp [registerRecords_present (recordSet service) rs.ResourceRecords [] hdup]

/-- C2 at a concrete input: the value is already the second record of the set. -/
theorem Register_deduplicates_witness :
    ([srvSet "web.example.com." ["1 1 80 10.0.0.1.", "1 1 8080 10.0.0.5."]].find?
        (fun s => decide (s.Name = currentName (zoneAdapter (okRemote
          [srvSet "web.example.com." ["1 1 80 10.0.0.1.", "1 1 8080 10.0.0.5."]]
          (some "Throttling"))) web)) =
        some (srvSet "web.example.com." ["1 1 80 10.0.0.1.", "1 1 8080 10.0.0.5."])) ∧
    ((zoneAdapter (okRemote
        [srvSet "web.example.com." ["1 1 80 10.0.0.1.", "1 1 8080 10.0.0.5."]]
        (some "Throttling"))).Register web).calls =
      [.list { HostedZoneId := "Z1", StartRecordName := "web.example.com.",
               StartRecordType := "SRV", MaxItems := "1000" }] ∧
    ((zoneAdapter (okRemote
        [srvSet "web.example.com." ["1 1 80 10.0.0.1.", "1 1 8080 10.0.0.5."]]
        (some "Throttling"))).Register web).ret = none :=
  ⟨by decide, Register_deduplicates
    (zoneAdapter (okRemote
      [srvSet "web.example.com." ["1 1 80 10.0.0.1.", "1 1 8080 10.0.0.5."]]
      (some "Throttling"))) web
    [srvSet "web.example.com." ["1 1 80 10.0.0.1.", "1 1 8080 10.0.0.5."]]
    (srvSet "web.example.com." ["1 1 80 10.0.0.1.", "1 1 8080 10.0.0.5."])
    rfl (by decide) (by decide)⟩

/-! ## Deregister -/

/-- C3: after a successful listing in which the first record set named
`<service.Name>.<dnsName>.` has exactly one record, holding the service's value,
`Deregister` performs the list call and then exactly one change call carrying
exactly one change: a DELETE of type SRV for `<service.Name>.<dnsName>` with TTL
`service.TTL` whose only record is the service's value; no change it sends is an
UPSERT. -/
theorem Deregister_deletes_last_record (r : Route53Adapter) (service : Service)
    (sets : List ResourceRecordSet) (rs : ResourceRecordSet)
    (hlist : r.route53.ListResourceRecordSets (listInput r service) =
      .ok { ResourceRecordSets := sets })
    (hfirst : sets.find? (fun s => decide (s.Name = currentName r service)) = some rs)
    (hone : rs.ResourceRecords.length = 1)
    (hval : ∃ x ∈ rs.ResourceRecords, x.Value = recordSet service) :
    (r.Deregister service).calls =
      [.list (listInput r service),
       .change
        { HostedZoneId := r.hostedZoneId
          ChangeBatch := { Changes := [
            { Action := "DELETE"
              ResourceRecordSet :=
                { Name := service.Name ++ "." ++ r.dnsName
                  Type_ := "SRV"
                  ResourceRecords := [{ Value := recordSet service }]
                  TTL := service.TTL } }] } }] ∧
      ∀ input, Call.change input ∈ (r.Deregister service).calls →
        ∀ c ∈ input.ChangeBatch.Changes, c.Action ≠ "UPSERT" := by
  obtain ⟨pre, x, post, hsplit, hpre, hx⟩ :=
    split_at_first (recordSet service) rs.ResourceRecords hval
  have hhit := deregisterRecords_hit r service (recordSet service) rs x post hx pre 0 hpre
  rw [← hsplit] at hhit
  have hcalls : (r.Deregister service).calls =
      [.list (listInput r service), .change (deleteInput r service)] := by
    rw [Deregister_listed r service sets hlist, hfirst]
    simp [hhit, hone]
  refine ⟨by rw [hcalls]; rfl, ?_⟩
  intro input hin c hc
  rw [hcalls] at hin
  simp only [List.mem_cons, List.mem_singleton, Call.change.injEq, reduceCtorEq, false_or,
    List.not_mem_nil, or_false] at hin
  subst hin
  simp only [deleteInput, List.mem_singleton] at hc
  subst hc
  show "DELETE" ≠ "UPSERT"
  decide

/-- C3 at a concrete input: the service's value is the only record of its set. -/
theorem Deregister_deletes_last_record_witness :
    (srvSet "web.example.com." ["1 1 8080 10.0.0.5."]).ResourceRecords.length = 1 ∧
    ((zoneAdapter (okRemote [srvSet "web.example.com." ["1 1 8080 10.0.0.5."]]
        none)).Deregister web).calls =
      [.list { HostedZoneId := "Z1", StartRecordName := "web.example.com.",
               StartRecordType := "SRV", MaxItems := "1000" },
       .change
        { HostedZoneId := "Z1"
          ChangeBatch := { Changes := [
            { Action := "DELETE"
              ResourceRecordSet :=
                { Name := "web.example.com"
                  Type_ := "SRV"
                  ResourceRecords := [{ Value := "1 1 8080 10.0.0.5." }]
                  TTL := 60 } }] } }] :=
  ⟨by decide, (Deregister_deletes_last_record
    (zoneAdapter (okRemote [srvSet "web.example.com." ["1 1 8080 10.0.0.5."]] none)) web
    [srvSet "web.example.com." ["1 1 8080 10.0.0.5."]]
    (srvSet "web.example.com." ["1 1 8080 10.0.0.5."])
    rfl (by decide) (by decide) (by decide)).1⟩

/-- C4: after a successful listing in which the first record set named
`<service.Name>.<dnsName>.` has at least two records, one of them holding the
service's value, `Deregister` performs the list call and then exactly one change
call carrying exactly one change: an UPSERT of type SRV for
`<service.Name>.<dnsName>` with TTL `service.TTL`.  Its records are the listed
ones with the first occurrence of the value removed: the listed records split as
`before ++ hit :: after` with no record of `before` holding the value and `hit`
holding it, and the records sent are `before ++ after`, one fewer than listed. -/
theorem Deregister_removes_own_record (r : Route53Adapter) (service : Service)
    (sets : List ResourceRecordSet) (rs : ResourceRecordSet)
    (hlist : r.route53.ListResourceRecordSets (listInput r service) =
      .ok { ResourceRecordSets := sets })
    (hfirst : sets.find? (fun s => decide (s.Name = currentName r service)) = some rs)
    (htwo : 2 ≤ rs.ResourceRecords.length)
    (hval : ∃ x ∈ rs.ResourceRecords, x.Value = recordSet service) :
    ∃ before hit after,
      rs.ResourceRecords = before ++ hit :: after ∧
      (∀ y ∈ before, y.Value ≠ recordSet service) ∧
      hit.Value = recordSet service ∧
      before ++ after = rs.ResourceRecords.eraseP (fun y => decide (y.Value = recordSet service)) ∧
      (before ++ after).length = rs.ResourceRecords.length - 1 ∧
      (r.Deregister service).calls =
        [.list (listInput r service),
         .change
          { HostedZoneId := r.hostedZoneId
            ChangeBatch := { Changes := [
              { Action := "UPSERT"
                ResourceRecordSet :=
                  { Name := service.Name ++ "." ++ r.dnsName
                    Type_ := "SRV"
                    ResourceRecords := before ++ after
                    TTL := service.TTL } }] } }] := by
  obtain ⟨pre, x, post, hsplit, hpre, hx⟩ :=
    split_at_first (recordSet service) rs.ResourceRecords hval
  have hhit := deregisterRecords_hit r service (recordSet service) rs x post hx pre 0 hpre
  rw [← hsplit] at hhit
  have hne : rs.ResourceRecords.length ≠ 1 := by omega
  refine ⟨pre, x, post, hsplit, hpre, hx, ?_, ?_, ?_⟩
  · rw [hsplit]
    have hp : ∀ y ∈ pre, ¬ (decide (y.Value = recordSet service) = true) := by
      intro y hy; simpa using hpre y hy
    rw [List.eraseP_append_right _ hp]
    simp [List.eraseP_cons, hx]
  · rw [hsplit]; simp
  · rw [Deregister_listed r service sets hlist, hfirst]
    have htd : rs.ResourceRecords.take (0 + pre.length) ++
        rs.ResourceRecords.drop (0 + pre.length + 1) = pre ++ post := by
      rw [hsplit, Nat.zero_add]
      exact take_drop_split pre post x
    rw [htd] at hhit
    simp [hhit, hne, upsertInput, changeName]

/-- C4 at a concrete input: the value sits between two other records, both kept
in their order. -/
theorem Deregister_removes_own_record_witness :
    2 ≤ (srvSet "web.example.com."
      ["1 1 80 10.0.0.1.", "1 1 8080 10.0.0.5.", "1 1 81 10.0.0.2."]).ResourceRecords.length ∧
    ∃ before hit after,
      (srvSet "web.example.com."
        ["1 1 80 10.0.0.1.", "1 1 8080 10.0.0.5.", "1 1 81 10.0.0.2."]).ResourceRecords =
        before ++ hit :: after ∧
      (∀ y ∈ before, y.Value ≠ recordSet web) ∧
      hit.Value = recordSet web ∧
      before ++ after = (srvSet "web.example.com."
        ["1 1 80 10.0.0.1.", "1 1 8080 10.0.0.5.", "1 1 81 10.0.0.2."]).ResourceRecords.eraseP
          (fun y => decide (y.Value = recordSet web)) ∧
      (before ++ after).length = (srvSet "web.example.com."
        ["1 1 80 10.0.0.1.", "1 1 8080 10.0.0.5.", "1 1 81 10.0.0.2."]).ResourceRecords.length - 1 ∧
      ((zoneAdapter (okRemote [srvSet "web.example.com."
        ["1 1 80 10.0.0.1.", "1 1 8080 10.0.0.5.", "1 1 81 10.0.0.2."]] none)).Deregister
          web).calls =
        [.list (listInput (zoneAdapter (okRemote [srvSet "web.example.com."
          ["1 1 80 10.0.0.1.", "1 1 8080 10.0.0.5.", "1 1 81 10.0.0.2."]] none)) web),
         .change
          { HostedZoneId := "Z1"
            ChangeBatch := { Changes := [
              { Action := "UPSERT"
                ResourceRecordSet :=
                  { Name := "web" ++ "." ++ "example.com"
                    Type_ := "SRV"
                    ResourceRecords := before ++ after
                    TTL := 60 } }] } }] :=
  ⟨by decide, Deregister_removes_own_record
    (zoneAdapter (okRemote [srvSet "web.example.com."
      ["1 1 80 10.0.0.1.", "1 1 8080 10.0.0.5.", "1 1 81 10.0.0.2."]] none)) web
    [srvSet "web.example.com." ["1 1 80 10.0.0.1.", "1 1 8080 10.0.0.5.", "1 1 81 10.0.0.2."]]
    (srvSet "web.example.com." ["1 1 80 10.0.0.1.", "1 1 8080 10.0.0.5.", "1 1 81 10.0.0.2."])
    rfl (by decide) (by decide) (by decide)⟩

/-- C10: after a successful listing in which no record set is named
`<service.Name>.<dnsName>.`, or the first such record set holds no record with the
service's value, `Deregister` performs the list call only, issues no change
request and returns nil.  Record sets after the first one with the name play no
part: whatever record sets follow it in the listing, the loop over the listing
sends nothing. -/
theorem Deregister_absent (r : Route53Adapter) (service : Service)
    (sets : List ResourceRecordSet)
    (hlist : r.route53.ListResourceRecordSets (listInput r service) =
      .ok { ResourceRecordSets := sets })
    (habsent : ∀ x ∈ ((sets.find? (fun s => decide (s.Name = currentName r service))).map
        (fun rs => rs.ResourceRecords)).getD [], x.Value ≠ recordSet service) :
    (r.Deregister service).calls = [.list (listInput r service)] ∧
      (r.Deregister service).ret = none ∧
      ∀ before rs after, sets = before ++ rs :: after →
        (∀ s ∈ before, s.Name ≠ currentName r service) → rs.Name = currentName r service →
        ∀ others, deregisterSets r service (currentName r service) (recordSet service)
          (before ++ rs :: others) = none := by
  have hmethod : (r.Deregister service).calls = [.list (listInput r service)] ∧
      (r.Deregister service).ret = none := by
    rw [Deregister_listed r service sets hlist]
    cases hfind : sets.find? (fun s => decide (s.Name = currentName r service)) with
    | none => simp
    | some rs =>
      rw [hfind] at habsent
      simp only [Option.map_some', Option.getD_some] at habsent
      simp [deregisterRecords_absent r service (recordSet service) rs rs.ResourceRecords 0 habsent]
  refine ⟨hmethod.1, hmethod.2, ?_⟩
  intro before rs after hsets hbefore hname others
  have hfirst : ∀ tail : List ResourceRecordSet,
      (before ++ rs :: tail).find? (fun s => decide (s.Name = currentName r service)) =
        some rs := by
    intro tail
    rw [List.find?_append]
    have hnone : before.find? (fun s => decide (s.Name = currentName r service)) = none := by
      rw [List.find?_eq_none]
      intro s hs
      simpa using hbefore s hs
    simp [hnone, List.find?_cons, hname]
  rw [hsets, hfirst after] at habsent
  simp only [Option.map_some', Option.getD_some] at habsent
  rw [deregisterSets_find, hfirst others]
  exact deregisterRecords_absent r service (recordSet service) rs rs.ResourceRecords 0 habsent

/-- C10 at a concrete input: the first record set of the name lacks the value and
a later record set of the same name holds it; nothing is sent. -/
theorem Deregister_absent_witness :
    (∀ x ∈ (([srvSet "web.example.com." ["1 1 80 10.0.0.1."],
        srvSet "web.example.com." ["1 1 8080 10.0.0.5."]].find?
          (fun s => decide (s.Name = currentName (zoneAdapter (okRemote
            [srvSet "web.example.com." ["1 1 80 10.0.0.1."],
              srvSet "web.example.com." ["1 1 8080 10.0.0.5."]] (some "Throttling"))) web))).map
        (fun rs => rs.ResourceRecords)).getD [], x.Value ≠ recordSet web) ∧
    ((zoneAdapter (okRemote [srvSet "web.example.com." ["1 1 80 10.0.0.1."],
        srvSet "web.example.com." ["1 1 8080 10.0.0.5."]] (some "Throttling"))).Deregister
          web).calls =
      [.list { HostedZoneId := "Z1", StartRecordName := "web.example.com.",
               StartRecordType := "SRV", MaxItems := "1000" }] ∧
    ((zoneAdapter (okRemote [srvSet "web.example.com." ["1 1 80 10.0.0.1."],
        srvSet "web.example.com." ["1 1 8080 10.0.0.5."]] (some "Throttling"))).Deregister
          web).ret = none :=
  ⟨by decide,
    (Deregister_absent
      (zoneAdapter (okRemote [srvSet "web.example.com." ["1 1 80 10.0.0.1."],
        srvSet "web.example.com." ["1 1 8080 10.0.0.5."]] (some "Throttling"))) web
      [srvSet "web.example.com." ["1 1 80 10.0.0.1."],
        srvSet "web.example.com." ["1 1 8080 10.0.0.5."]] rfl (by decide)).1,
    (Deregister_absent
      (zoneAdapter (okRemote [srvSet "web.example.com." ["1 1 80 10.0.0.1."],
        srvSet "web.example.com." ["1 1 8080 10.0.0.5."]] (some "Throttling"))) web
      [srvSet "web.example.com." ["1 1 80 10.0.0.1."],
        srvSet "web.example.com." ["1 1 8080 10.0.0.5."]] rfl (by decide)).2.1⟩

/-! ## Refresh and Services -/

/-- C6: `Refresh` returns nil and `Services` returns the empty service list with a
nil error; neither performs a remote call and both leave the adapter as it was. -/
theorem Refresh_Services_noop (r : Route53Adapter) (service : Service) :
    (r.Refresh service).ret = none ∧ (r.Refresh service).calls = [] ∧
      (r.Refresh service).adapter = r ∧
      r.Services.ret = ([], none) ∧ r.Services.calls = [] ∧ r.Services.adapter = r :=
  ⟨rfl, rfl, rfl, rfl, rfl, rfl⟩

/-! ## Errors -/

/-- C9: `Register` and `Deregister` return the error `e` exactly when they issued
a change call and the remote answered that call with `e`; so a non-nil return is
always the error of a failed change call.  When the list call fails, both return
nil and perform no change call. -/
theorem error_iff_change_failed (r : Route53Adapter) (service : Service) :
    (∀ e, (r.Register service).ret = some e ↔
      ∃ c, Call.change c ∈ (r.Register service).calls ∧
        r.route53.ChangeResourceRecordSets c = some e) ∧
    (∀ e, (r.Deregister service).ret = some e ↔
      ∃ c, Call.change c ∈ (r.Deregister service).calls ∧
        r.route53.ChangeResourceRecordSets c = some e) ∧
    (∀ err, r.route53.ListResourceRecordSets (listInput r service) = .error err →
      (r.Register service).ret = none ∧
      (r.Register service).calls = [.list (listInput r service)] ∧
      (r.Deregister service).ret = none ∧
      (r.Deregister service).calls = [.list (listInput r service)]) := by
  refine ⟨?_, ?_, ?_⟩
  · intro e
    cases hlist : r.route53.ListResourceRecordSets (listInput r service) with
    | error err => rw [Register_list_failed r service err hlist]; simp
    | ok resp =>
      rw [Register_listed r service resp.ResourceRecordSets hlist]
      cases resp.ResourceRecordSets.find? (fun x => decide (x.Name = currentName r service)) with
      | none => simp
      | some rs =>
        cases hrr : registerRecords (recordSet service) rs.ResourceRecords [] <;> simp [hrr]
  · intro e
    cases hlist : r.route53.ListResourceRecordSets (listInput r service) with
    | error err => rw [Deregister_list_failed r service err hlist]; simp
    | ok resp =>
      rw [Deregister_listed r service resp.ResourceRecordSets hlist]
      cases hsent : (resp.ResourceRecordSets.find?
        (fun x => decide (x.Name = currentName r service))).bind
          (fun rs => deregisterRecords r service (recordSet service) rs 0 rs.ResourceRecords)
        <;> simp
  · intro err hlist
    rw [Register_list_failed r service err hlist, Deregister_list_failed r service err hlist]
    exact ⟨rfl, rfl, rfl, rfl⟩

/-! ## The calls of a method after a successful listing -/

theorem Register_calls_fresh (r : Route53Adapter) (service : Service)
    (sets : List ResourceRecordSet)
    (hlist : r.route53.ListResourceRecordSets (listInput r service) =
      .ok { ResourceRecordSets := sets })
    (hnew : ∀ x ∈ ((sets.find? (fun s => decide (s.Name = currentName r service))).map
        (fun rs => rs.ResourceRecords)).getD [], x.Value ≠ recordSet service) :
    (r.Register service).calls =
      [.list (listInput r service),
       .change (upsertInput r service
        (((sets.find? (fun s => decide (s.Name = currentName r service))).map
          (fun rs => rs.ResourceRecords)).getD [] ++ [{ Value := recordSet service }]))] := by
  rw [Register_listed r service sets hlist]
  cases hfind : sets.find? (fun s => decide (s.Name = currentName r service)) with
  | none => simp
  | some rs =>
    rw [hfind] at hnew
    simp only [Option.map_some', Option.getD_some] at hnew ⊢
    rw [registerRecords_fresh (recordSet service) rs.ResourceRecords [] hnew]
    simp

theorem Register_calls_present (r : Route53Adapter) (service : Service)
    (sets : List ResourceRecordSet)
    (hlist : r.route53.ListResourceRecordSets (listInput r service) =
      .ok { ResourceRecordSets := sets })
    (hdup : ∃ x ∈ ((sets.find? (fun s => decide (s.Name = currentName r service))).map
        (fun rs => rs.ResourceRecords)).getD [], x.Value = recordSet service) :
    (r.Register service).calls = [.list (listInput r service)] := by
  rw [Register_listed r service sets hlist]
  cases hfind : sets.find? (fun s => decide (s.Name = currentName r service)) with
  | none => rw [hfind] at hdup; simp at hdup
  | some rs =>
    rw [hfind] at hdup
    simp only [Option.map_some', Option.getD_some] at hdup
    simp [registerRecords_present (recordSet service) rs.ResourceRecords [] hdup]

theorem Deregister_calls_absent (r : Route53Adapter) (service : Service)
    (sets : List ResourceRecordSet)
    (hlist : r.route53.ListResourceRecordSets (listInput r service) =
      .ok { ResourceRecordSets := sets })
    (habsent : ∀ x ∈ ((sets.find? (fun s => decide (s.Name = currentName r service))).map
        (fun rs => rs.ResourceRecords)).getD [], x.Value ≠ recordSet service) :
    (r.Deregister service).calls = [.list (listInput r service)] := by
  rw [Deregister_listed r service sets hlist]
  cases hfind : sets.find? (fun s => decide (s.Name = currentName r service)) with
  | none => simp
  | some rs =>
    rw [hfind] at habsent
    simp only [Option.map_some', Option.getD_some] at habsent
    simp [deregisterRecords_absent r service (recordSet service) rs rs.ResourceRecords 0 habsent]

theorem Deregister_calls_present (r : Route53Adapter) (service : Service)
    (sets : List ResourceRecordSet)
    (hlist : r.route53.ListResourceRecordSets (listInput r service) =
      .ok { ResourceRecordSets := sets })
    (hval : ∃ x ∈ ((sets.find? (fun s => decide (s.Name = currentName r service))).map
        (fun rs => rs.ResourceRecords)).getD [], x.Value = recordSet service) :
    ∃ c, (r.Deregister service).calls = [.list (listInput r service), .change c] := by
  rw [Deregister_listed r service sets hlist]
  cases hfind : sets.find? (fun s => decide (s.Name = currentName r service)) with
  | none => rw [hfind] at hval; simp at hval
  | some rs =>
    rw [hfind] at hval
    simp only [Option.map_some', Option.getD_some] at hval
    obtain ⟨pre, x, post, hsplit, hpre, hx⟩ :=
      split_at_first (recordSet service) rs.ResourceRecords hval
    have hhit := deregisterRecords_hit r service (recordSet service) rs x post hx pre 0 hpre
    rw [← hsplit] at hhit
    simp [hhit]

/-! ## The remote exchange -/

/-- C5, as stated, fails: `Register` against a remote whose list call fails
performs the list call and no change call, and so does `Deregister` of a value the
listed record set does not hold. -/
theorem two_call_exchange_counterexample :
    (¬ ∃ l c, ((zoneAdapter downRemote).Register web).calls = [.list l, .change c]) ∧
    (¬ ∃ l c, ((zoneAdapter (okRemote [srvSet "web.example.com." ["1 1 80 10.0.0.1."]]
      none)).Deregister web).calls = [.list l, .change c]) := by
  constructor
  · rintro ⟨l, c, h⟩
    have hcalls : ((zoneAdapter downRemote).Register web).calls =
        [.list (listInput (zoneAdapter downRemote) web)] := rfl
    rw [hcalls] at h
    simp at h
  · rintro ⟨l, c, h⟩
    have hcalls : ((zoneAdapter (okRemote [srvSet "web.example.com." ["1 1 80 10.0.0.1."]]
        none)).Deregister web).calls =
        [.list (listInput (zoneAdapter (okRemote
          [srvSet "web.example.com." ["1 1 80 10.0.0.1."]] none)) web)] := by decide
    rw [hcalls] at h
    simp at h

/-- C5, amended: every `Register` and every `Deregister` performs exactly one list
call first, followed by at most one change call.  `Register` issues the change call
exactly when the list call succeeds and no record of the first listed record set
with the service's name (none when there is no such record set) holds the
service's value; `Deregister` issues it exactly when the list call succeeds and
some record of that record set holds the value. -/
theorem list_then_at_most_one_change (r : Route53Adapter) (service : Service) :
    ((r.Register service).calls = [.list (listInput r service)] ∨
      ∃ c, (r.Register service).calls = [.list (listInput r service), .change c]) ∧
    ((r.Deregister service).calls = [.list (listInput r service)] ∨
      ∃ c, (r.Deregister service).calls = [.list (listInput r service), .change c]) ∧
    ((∃ c, Call.change c ∈ (r.Register service).calls) ↔
      ∃ sets, r.route53.ListResourceRecordSets (listInput r service) =
          .ok { ResourceRecordSets := sets } ∧
        ∀ x ∈ ((sets.find? (fun s => decide (s.Name = currentName r service))).map
          (fun rs => rs.ResourceRecords)).getD [], x.Value ≠ recordSet service) ∧
    ((∃ c, Call.change c ∈ (r.Deregister service).calls) ↔
      ∃ sets, r.route53.ListResourceRecordSets (listInput r service) =
          .ok { ResourceRecordSets := sets } ∧
        ∃ x ∈ ((sets.find? (fun s => decide (s.Name = currentName r service))).map
          (fun rs => rs.ResourceRecords)).getD [], x.Value = recordSet service) := by
  cases hlist : r.route53.ListResourceRecordSets (listInput r service) with
  | error err =>
    rw [Register_list_failed r service err hlist, Deregister_list_failed r service err hlist]
    simp
  | ok resp =>
    obtain ⟨sets⟩ := resp
    by_cases hval : ∃ x ∈ ((sets.find? (fun s => decide (s.Name = currentName r service))).map
        (fun rs => rs.ResourceRecords)).getD [], x.Value = recordSet service
    · have hR := Register_calls_present r service sets hlist hval
      obtain ⟨c, hD⟩ := Deregister_calls_present r service sets hlist hval
      rw [hR, hD]
      refine ⟨Or.inl rfl, Or.inr ⟨c, rfl⟩, ?_, ?_⟩
      · constructor
        · rintro ⟨c, hc⟩
          simp at hc
        · rintro ⟨sets2, hsets2, hall⟩
          simp only [Except.ok.injEq, ListResourceRecordSetsOutput.mk.injEq] at hsets2
          subst hsets2
          obtain ⟨x, hx, hxv⟩ := hval
          exact absurd hxv (hall x hx)
      · constructor
        · intro _
          exact ⟨sets, rfl, hval⟩
        · intro _
          exact ⟨c, List.mem_cons_of_mem _ (List.mem_singleton.mpr rfl)⟩
    · have hall : ∀ x ∈ ((sets.find? (fun s => decide (s.Name = currentName r service))).map
          (fun rs => rs.ResourceRecords)).getD [], x.Value ≠ recordSet service := by
        intro x hx hxv
        exact hval ⟨x, hx, hxv⟩
      have hR := Register_calls_fresh r service sets hlist hall
      have hD := Deregister_calls_absent r service sets hlist hall
      rw [hR, hD]
      refine ⟨Or.inr ⟨_, rfl⟩, Or.inl rfl, ?_, ?_⟩
      · constructor
        · intro _
          exact ⟨sets, rfl, hall⟩
        · intro _
          exact ⟨_, List.mem_cons_of_mem _ (List.mem_singleton.mpr rfl)⟩
      · constructor
        · rintro ⟨c, hc⟩
          simp at hc
        · rintro ⟨sets2, hsets2, hex⟩
          simp only [Except.ok.injEq, ListResourceRecordSetsOutput.mk.injEq] at hsets2
          subst hsets2
          exact absurd hex hval

/-! ## The record value -/

theorem digitChar_ne_space (n : Nat) : Nat.digitChar n ≠ ' ' := by
  rcases Nat.lt_or_ge n 16 with h | h
  · interval_cases n <;> decide
  · have hstar : Nat.digitChar n = '*' := by
      unfold Nat.digitChar
      repeat rw [if_neg (by omega)]
    rw [hstar]
    decide

theorem toDigitsCore_no_space :
    ∀ (fuel n : Nat) (ds : List Char), (∀ c ∈ ds, c ≠ ' ') →
      ∀ c ∈ Nat.toDigitsCore 10 fuel n ds, c ≠ ' ' := by
  intro fuel
  induction fuel with
  | zero => intro n ds h; simpa [Nat.toDigitsCore] using h
  | succ fuel ih =>
    intro n ds h
    have hds : ∀ c ∈ Nat.digitChar (n % 10) :: ds, c ≠ ' ' := by
      intro c hc
      rcases List.mem_cons.mp hc with rfl | hc
      · exact digitChar_ne_space _
      · exact h c hc
    simp only [Nat.toDigitsCore]
    split_ifs
    · exact hds
    · exact ih _ _ hds

theorem nat_repr_no_space (n : Nat) : ' ' ∉ (toString n).data := by
  intro hmem
  exact toDigitsCore_no_space (n + 1) n [] (by simp) ' ' hmem rfl

theorem int_toString_no_space (i : Int) : ' ' ∉ (toString i).data := by
  cases i with
  | ofNat m => exact nat_repr_no_space m
  | negSucc m =>
    intro hmem
    have hdata : (toString (Int.negSucc m)).data = '-' :: (toString (m + 1)).data := rfl
    rw [hdata] at hmem
    rcases List.mem_cons.mp hmem with h | h
    · exact absurd h (by decide)
    · exact nat_repr_no_space (m + 1) h

theorem recordSet_data (service : Service) :
    (recordSet service).data =
      [' '].intercalate
        [['1'], ['1'], (toString service.Port).data, service.IP.data ++ ['.']] := by
  simp [recordSet, String.data_append, List.intercalate]

/-- C7, amended: the record value of a service is the four strings `1`, `1`, the
decimal rendering of `service.Port` and `service.IP` followed by a dot, joined by
single spaces; for a service whose IP holds no space, splitting the value at
spaces gives back exactly these four fields.  It is the value `Register` appends to
the records it upserts, the value whose presence in the first record set of the
service's name decides whether `Deregister` sends a change, and the value
`Deregister` puts in its DELETE. -/
theorem recordSet_format (r : Route53Adapter) (service : Service) :
    recordSet service =
      " ".intercalate ["1", "1", toString service.Port, service.IP ++ "."] ∧
    (' ' ∉ service.IP.data →
      (recordSet service).data.splitOn ' ' =
        [['1'], ['1'], (toString service.Port).data, service.IP.data ++ ['.']]) ∧
    (∀ c, Call.change c ∈ (r.Register service).calls →
      ∀ ch ∈ c.ChangeBatch.Changes, ∃ vs,
        ch.ResourceRecordSet.ResourceRecords = vs ++ [{ Value := recordSet service }]) ∧
    ((∃ c, Call.change c ∈ (r.Deregister service).calls) ↔
      ∃ sets rs, r.route53.ListResourceRecordSets (listInput r service) =
          .ok { ResourceRecordSets := sets } ∧
        sets.find? (fun s => decide (s.Name = currentName r service)) = some rs ∧
        { Value := recordSet service } ∈ rs.ResourceRecords) ∧
    (deleteInput r service).ChangeBatch.Changes.map
        (fun ch => ch.ResourceRecordSet.ResourceRecords) =
      [[{ Value := recordSet service }]] := by
  refine ⟨?_, ?_, ?_, ?_, rfl⟩
  · simp [recordSet, String.intercalate, String.intercalate.go, String.append_assoc]
  · intro hip
    rw [recordSet_data]
    apply List.splitOn_intercalate
    · intro l hl
      simp only [List.mem_cons, List.mem_singleton, List.not_mem_nil, or_false] at hl
      rcases hl with rfl | rfl | rfl | rfl
      · decide
      · decide
      · exact int_toString_no_space service.Port
      · intro hmem
        rcases List.mem_append.mp hmem with h | h
        · exact hip h
        · exact absurd h (by decide)
    · simp
  · intro c hc ch hch
    cases hlist : r.route53.ListResourceRecordSets (listInput r service) with
    | error err =>
      rw [Register_list_failed r service err hlist] at hc
      simp at hc
    | ok resp =>
      rw [Register_listed r service resp.ResourceRecordSets hlist] at hc
      cases hfind : resp.ResourceRecordSets.find?
          (fun x => decide (x.Name = currentName r service)) with
      | none =>
        rw [hfind] at hc
        simp only [List.mem_cons, reduceCtorEq, Call.change.injEq, List.mem_singleton,
          List.not_mem_nil, false_or, or_false] at hc
        subst hc
        simp only [upsertInput, List.mem_singleton] at hch
        subst hch
        exact ⟨[], rfl⟩
      | some rs =>
        rw [hfind] at hc
        cases hrr : registerRecords (recordSet service) rs.ResourceRecords [] with
        | returned =>
          simp [hrr] at hc
        | done changeSet =>
          simp only [hrr, List.mem_cons, reduceCtorEq, Call.change.injEq, List.mem_singleton,
            List.not_mem_nil, false_or, or_false] at hc
          subst hc
          simp only [upsertInput, List.mem_singleton] at hch
          subst hch
          exact ⟨changeSet, rfl⟩
  · constructor
    · rintro ⟨c, hc⟩
      cases hlist : r.route53.ListResourceRecordSets (listInput r service) with
      | error err =>
        rw [Deregister_list_failed r service err hlist] at hc
        simp at hc
      | ok resp =>
        obtain ⟨sets⟩ := resp
        by_cases hval : ∃ x ∈ ((sets.find?
            (fun s => decide (s.Name = currentName r service))).map
            (fun rs => rs.ResourceRecords)).getD [], x.Value = recordSet service
        · cases hfind : sets.find? (fun s => decide (s.Name = currentName r service)) with
          | none => rw [hfind] at hval; simp at hval
          | some rs =>
            rw [hfind] at hval
            simp only [Option.map_some', Option.getD_some] at hval
            obtain ⟨x, hx, hxv⟩ := hval
            refine ⟨sets, rs, rfl, hfind, ?_⟩
            have hxe : x = { Value := recordSet service } := by
              cases x
              simp only at hxv
              rw [hxv]
            rw [← hxe]
            exact hx
        · have hall : ∀ x ∈ ((sets.find?
              (fun s => decide (s.Name = currentName r service))).map
              (fun rs => rs.ResourceRecords)).getD [], x.Value ≠ recordSet service := by
            intro x hx hxv
            exact hval ⟨x, hx, hxv⟩
          rw [Deregister_calls_absent r service sets hlist hall] at hc
          simp at hc
    · rintro ⟨sets, rs, hlist, hfind, hmem⟩
      have hval : ∃ x ∈ ((sets.find?
          (fun s => decide (s.Name = currentName r service))).map
          (fun rs => rs.ResourceRecords)).getD [], x.Value = recordSet service := by
        rw [hfind]
        exact ⟨_, hmem, rfl⟩
      obtain ⟨c, hD⟩ := Deregister_calls_present r service sets hlist hval
      rw [hD]
      exact ⟨c, List.mem_cons_of_mem _ (List.mem_singleton.mpr rfl)⟩

/-- C7, amended, at a concrete input: the value of `web` at `10.0.0.5:8080`, whose IP
holds no space, and its four fields. -/
theorem recordSet_format_witness :
    recordSet web = "1 1 8080 10.0.0.5." ∧
    (recordSet web).data.splitOn ' ' =
      [['1'], ['1'], (toString web.Port).data, web.IP.data ++ ['.']] :=
  ⟨by decide, (recordSet_format (zoneAdapter downRemote) web).2.1 (by decide)⟩

/-! ## Register, then Deregister -/

theorem round_trip_requests (r : Route53Adapter) (service : Service)
    (later : Route53) (sets sets2 : List ResourceRecordSet) (rs2 : ResourceRecordSet)
    (hlist : r.route53.ListResourceRecordSets (listInput r service) =
      .ok { ResourceRecordSets := sets })
    (hnew : ∀ x ∈ ((sets.find? (fun s => decide (s.Name = currentName r service))).map
        (fun rs => rs.ResourceRecords)).getD [], x.Value ≠ recordSet service)
    (hlist2 : later.ListResourceRecordSets (listInput r service) =
      .ok { ResourceRecordSets := sets2 })
    (hfirst2 : sets2.find? (fun s => decide (s.Name = currentName r service)) = some rs2)
    (hrs2 : rs2.ResourceRecords =
      ((sets.find? (fun s => decide (s.Name = currentName r service))).map
        (fun rs => rs.ResourceRecords)).getD [] ++ [{ Value := recordSet service }]) :
    (r.Register service).calls =
      [.list (listInput r service), .change (upsertInput r service rs2.ResourceRecords)] ∧
    ({ r with route53 := later }.Deregister service).calls =
      [.list (listInput r service),
       .change
        (if ((sets.find? (fun s => decide (s.Name = currentName r service))).map
            (fun rs => rs.ResourceRecords)).getD [] = []
          then deleteInput r service
          else upsertInput r service
            (((sets.find? (fun s => decide (s.Name = currentName r service))).map
              (fun rs => rs.ResourceRecords)).getD []))] := by
  constructor
  · rw [hrs2]
    exact Register_calls_fresh r service sets hlist hnew
  · generalize ((sets.find? (fun s => decide (s.Name = currentName r service))).map
        (fun rs => rs.ResourceRecords)).getD [] = vs at hnew hrs2 ⊢
    have hD := Deregister_listed { r with route53 := later } service sets2 hlist2
    have hfirst : sets2.find?
        (fun s => decide (s.Name = currentName { r with route53 := later } service)) =
          some rs2 := hfirst2
    rw [hfirst] at hD
    have hhit := deregisterRecords_hit { r with route53 := later } service (recordSet service)
      rs2 { Value := recordSet service } [] rfl vs 0 hnew
    rw [← hrs2] at hhit
    rw [hD]
    simp only [Option.some_bind, hhit]
    have htd : rs2.ResourceRecords.take (0 + vs.length) ++
        rs2.ResourceRecords.drop (0 + vs.length + 1) = vs := by
      rw [hrs2, Nat.zero_add]
      simp
    have hlen : rs2.ResourceRecords.length = 1 ↔ vs = [] := by
      rw [hrs2]
      cases vs <;> simp
    rw [htd]
    by_cases hvs : vs = []
    · rw [if_pos (hlen.mpr hvs), if_pos hvs]
      rfl
    · rw [if_neg (fun h => hvs (hlen.mp h)), if_neg hvs]
      rfl

/-- C9 at concrete inputs: a failed change call is what `Register` returns, and a
failed list call is swallowed. -/
theorem error_iff_change_failed_witness :
    ((zoneAdapter (okRemote [] (some "Throttling"))).Register web).ret = some "Throttling" ∧
    ((zoneAdapter downRemote).Register web).ret = none ∧
    ((zoneAdapter downRemote).Deregister web).calls =
      [.list { HostedZoneId := "Z1", StartRecordName := "web.example.com.",
               StartRecordType := "SRV", MaxItems := "1000" }] :=
  ⟨((error_iff_change_failed (zoneAdapter (okRemote [] (some "Throttling"))) web).1
      "Throttling").mpr ⟨_, List.mem_cons_of_mem _ (List.mem_singleton.mpr rfl), rfl⟩,
   ((error_iff_change_failed (zoneAdapter downRemote) web).2.2
      "RequestError: send request failed" rfl).1,
   ((error_iff_change_failed (zoneAdapter downRemote) web).2.2
      "RequestError: send request failed" rfl).2.2.2⟩

/-! ## Register, then Deregister, against the stored record set -/

theorem find_stored (name : String) (others : List ResourceRecordSet)
    (stored : Option ResourceRecordSet)
    (hothers : ∀ s ∈ others, s.Name ≠ name)
    (hstored : ∀ rs ∈ stored.toList, rs.Name = name) :
    (others ++ stored.toList).find? (fun s => decide (s.Name = name)) = stored := by
  have hnone : others.find? (fun s => decide (s.Name = name)) = none := by
    rw [List.find?_eq_none]
    intro s hs
    simpa using hothers s hs
  rw [List.find?_append, hnone]
  cases stored with
  | none => rfl
  | some rs =>
    have hname : rs.Name = name := hstored rs (by simp)
    simp [List.find?_cons, hname]

theorem applyCalls_upsert (r : Route53Adapter) (service : Service)
    (stored : Option ResourceRecordSet) (l : ListResourceRecordSetsInput)
    (changeSet : List ResourceRecord) :
    applyCalls (currentName r service) stored
        [.list l, .change (upsertInput r service changeSet)] =
      some { Name := currentName r service, Type_ := "SRV", ResourceRecords := changeSet,
             TTL := service.TTL } := by
  have hname : changeName r service ++ "." = currentName r service := rfl
  simp [applyCalls, applyChange, upsertInput, hname]

theorem applyCalls_delete (r : Route53Adapter) (service : Service)
    (l : ListResourceRecordSetsInput) :
    applyCalls (currentName r service)
        (some { Name := currentName r service, Type_ := "SRV",
                ResourceRecords := [{ Value := recordSet service }], TTL := service.TTL })
        [.list l, .change (deleteInput r service)] = none := by
  have hname : changeName r service ++ "." = currentName r service := rfl
  have hvalue : "1 1 " ++ toString service.Port ++ " " ++ service.IP ++ "." =
      recordSet service := rfl
  have hne : ¬ ("DELETE" = "UPSERT") := by decide
  simp [applyCalls, applyChange, deleteInput, hname, hvalue, hne]

/-- C8, as stated, fails on the stored record set: a record set listed with TTL 300
and one other record comes back from `Register` then `Deregister` with the same
record but TTL 60, the service's TTL, so it is not the record set stored before. -/
theorem round_trip_state_counterexample :
    afterDeregister (zoneAdapter downRemote) web []
        (afterRegister (zoneAdapter downRemote) web []
          (some (srvSet "web.example.com." ["1 1 80 10.0.0.1."]))) =
      some { Name := "web.example.com.", Type_ := "SRV",
             ResourceRecords := [{ Value := "1 1 80 10.0.0.1." }], TTL := 60 } ∧
    afterDeregister (zoneAdapter downRemote) web []
        (afterRegister (zoneAdapter downRemote) web []
          (some (srvSet "web.example.com." ["1 1 80 10.0.0.1."]))) ≠
      some (srvSet "web.example.com." ["1 1 80 10.0.0.1."]) := by
  decide

/-- C7, as stated, fails for a service whose IP text holds a space: the value of
`spacedService` is `1 1 8080 10.0.0.5 x.`, which splits at spaces into five fields,
not four. -/
theorem recordSet_fields_counterexample :
    recordSet spacedService = "1 1 8080 10.0.0.5 x." ∧
    (recordSet spacedService).data.splitOn ' ' =
      [['1'], ['1'], ['8', '0', '8', '0'], "10.0.0.5".data, ['x', '.']] ∧
    ((recordSet spacedService).data.splitOn ' ').length = 5 ∧
    (recordSet spacedService).data.splitOn ' ' ≠
      [['1'], ['1'], (toString spacedService.Port).data, spacedService.IP.data ++ ['.']] := by
  decide

/-- C8, amended: let `vs` be the records of the record set stored under the
service's name (none when no record set is stored), none of them holding the
service's value.  `Register` upserts `vs ++ [value]`, which the remote then stores
with TTL `service.TTL`.  From that state `Deregister` sends one change: an UPSERT
of `vs` when `vs` is non-empty, after which the remote stores `vs` with TTL
`service.TTL`, and a DELETE of the single value when `vs` is empty, after which no
record set is stored.  In both cases the stored record list is `vs` again. -/
theorem Register_then_Deregister_round_trip (r : Route53Adapter) (service : Service)
    (others : List ResourceRecordSet) (stored : Option ResourceRecordSet)
    (hothers : ∀ s ∈ others, s.Name ≠ currentName r service)
    (hstored : ∀ rs ∈ stored.toList, rs.Name = currentName r service)
    (hnew : ∀ x ∈ (stored.map (fun rs => rs.ResourceRecords)).getD [],
      x.Value ≠ recordSet service) :
    ({ r with route53 := storeRemote others stored }.Register service).calls =
      [.list (listInput r service),
       .change (upsertInput r service
        ((stored.map (fun rs => rs.ResourceRecords)).getD [] ++
          [{ Value := recordSet service }]))] ∧
    afterRegister r service others stored =
      some { Name := currentName r service, Type_ := "SRV",
             ResourceRecords := (stored.map (fun rs => rs.ResourceRecords)).getD [] ++
               [{ Value := recordSet service }],
             TTL := service.TTL } ∧
    ({ r with route53 := storeRemote others (afterRegister r service others stored) }.Deregister
        service).calls =
      [.list (listInput r service),
       .change
        (if (stored.map (fun rs => rs.ResourceRecords)).getD [] = []
          then deleteInput r service
          else upsertInput r service ((stored.map (fun rs => rs.ResourceRecords)).getD []))] ∧
    afterDeregister r service others (afterRegister r service others stored) =
      (if (stored.map (fun rs => rs.ResourceRecords)).getD [] = [] then none
        else some { Name := currentName r service, Type_ := "SRV",
                    ResourceRecords := (stored.map (fun rs => rs.ResourceRecords)).getD [],
                    TTL := service.TTL }) ∧
    ((afterDeregister r service others (afterRegister r service others stored)).map
        (fun rs => rs.ResourceRecords)).getD [] =
      (stored.map (fun rs => rs.ResourceRecords)).getD [] := by
  have hfind := find_stored (currentName r service) others stored hothers hstored
  have hnew2 : ∀ x ∈ (((others ++ stored.toList).find?
      (fun s => decide (s.Name = currentName r service))).map
        (fun rs => rs.ResourceRecords)).getD [], x.Value ≠ recordSet service := by
    rw [hfind]
    exact hnew
  have hfind2 := find_stored (currentName r service) others
    (some { Name := currentName r service, Type_ := "SRV",
            ResourceRecords := (stored.map (fun rs => rs.ResourceRecords)).getD [] ++
              [{ Value := recordSet service }],
            TTL := service.TTL })
    hothers (by intro rs hrs; simp only [Option.toList_some, List.mem_singleton] at hrs; rw [hrs])
  have hreq := round_trip_requests { r with route53 := storeRemote others stored } service
    (storeRemote others
      (some { Name := currentName r service, Type_ := "SRV",
              ResourceRecords := (stored.map (fun rs => rs.ResourceRecords)).getD [] ++
                [{ Value := recordSet service }],
              TTL := service.TTL }))
    (others ++ stored.toList) _ _ rfl hnew2 rfl hfind2
    (by
      show (stored.map (fun rs => rs.ResourceRecords)).getD [] ++ [{ Value := recordSet service }] =
        (((others ++ stored.toList).find?
          (fun s => decide (s.Name = currentName r service))).map
            (fun rs => rs.ResourceRecords)).getD [] ++ [{ Value := recordSet service }]
      rw [hfind])
  have hfind0 : (others ++ stored.toList).find?
      (fun s => decide (s.Name =
        currentName { r with route53 := storeRemote others stored } service)) = stored := hfind
  rw [hfind0] at hreq
  obtain ⟨hR, hD⟩ := hreq
  have hR2 : ({ r with route53 := storeRemote others stored }.Register service).calls =
      [.list (listInput r service),
       .change (upsertInput r service
        ((stored.map (fun rs => rs.ResourceRecords)).getD [] ++
          [{ Value := recordSet service }]))] := hR
  have hafter : afterRegister r service others stored =
      some { Name := currentName r service, Type_ := "SRV",
             ResourceRecords := (stored.map (fun rs => rs.ResourceRecords)).getD [] ++
               [{ Value := recordSet service }],
             TTL := service.TTL } := by
    unfold afterRegister
    rw [hR2]
    exact applyCalls_upsert r service stored _ _
  have hD2 : ({ r with route53 := storeRemote others (afterRegister r service others stored) }.Deregister
        service).calls =
      [.list (listInput r service),
       .change
        (if (stored.map (fun rs => rs.ResourceRecords)).getD [] = []
          then deleteInput r service
          else upsertInput r service
            ((stored.map (fun rs => rs.ResourceRecords)).getD []))] := by
    rw [hafter]
    exact hD
  have hstate : afterDeregister r service others (afterRegister r service others stored) =
      (if (stored.map (fun rs => rs.ResourceRecords)).getD [] = [] then none
        else some { Name := currentName r service, Type_ := "SRV",
                    ResourceRecords := (stored.map (fun rs => rs.ResourceRecords)).getD [],
                    TTL := service.TTL }) := by
    unfold afterDeregister
    rw [hD2, hafter]
    by_cases hvs : (stored.map (fun rs => rs.ResourceRecords)).getD [] = []
    · rw [if_pos hvs, if_pos hvs, hvs]
      exact applyCalls_delete r service _
    · rw [if_neg hvs, if_neg hvs]
      exact applyCalls_upsert r service _ _ _
  refine ⟨hR2, hafter, hD2, hstate, ?_⟩
  rw [hstate]
  by_cases hvs : (stored.map (fun rs => rs.ResourceRecords)).getD [] = []
  · rw [if_pos hvs, hvs]
    rfl
  · rw [if_neg hvs]
    rfl

/-- C8 at two concrete inputs: a record set stored with one other record and TTL
300 holds that record alone again, now with TTL 60; with no record set stored
before `Register`, none is stored after `Deregister`. -/
theorem Register_then_Deregister_round_trip_witness :
    afterRegister (zoneAdapter downRemote) web [srvSet "db.example.com." ["1 1 5432 10.0.0.9."]]
        (some (srvSet "web.example.com." ["1 1 80 10.0.0.1."])) =
      some { Name := "web.example.com.", Type_ := "SRV",
             ResourceRecords := [{ Value := "1 1 80 10.0.0.1." },
               { Value := "1 1 8080 10.0.0.5." }],
             TTL := 60 } ∧
    afterDeregister (zoneAdapter downRemote) web [srvSet "db.example.com." ["1 1 5432 10.0.0.9."]]
        (afterRegister (zoneAdapter downRemote) web
          [srvSet "db.example.com." ["1 1 5432 10.0.0.9."]]
          (some (srvSet "web.example.com." ["1 1 80 10.0.0.1."]))) =
      some { Name := "web.example.com.", Type_ := "SRV",
             ResourceRecords := [{ Value := "1 1 80 10.0.0.1." }], TTL := 60 } ∧
    afterRegister (zoneAdapter downRemote) web [] none =
      some { Name := "web.example.com.", Type_ := "SRV",
             ResourceRecords := [{ Value := "1 1 8080 10.0.0.5." }], TTL := 60 } ∧
    afterDeregister (zoneAdapter downRemote) web []
        (afterRegister (zoneAdapter downRemote) web [] none) = none :=
  ⟨(Register_then_Deregister_round_trip (zoneAdapter downRemote) web
      [srvSet "db.example.com." ["1 1 5432 10.0.0.9."]]
      (some (srvSet "web.example.com." ["1 1 80 10.0.0.1."]))
      (by decide) (by decide) (by decide)).2.1,
   (Register_then_Deregister_round_trip (zoneAdapter downRemote) web
      [srvSet "db.example.com." ["1 1 5432 10.0.0.9."]]
      (some (srvSet "web.example.com." ["1 1 80 10.0.0.1."]))
      (by decide) (by decide) (by decide)).2.2.2.1,
   (Register_then_Deregister_round_trip (zoneAdapter downRemote) web [] none
      (by decide) (by decide) (by decide)).2.1,
   (Register_then_Deregister_round_trip (zoneAdapter downRemote) web [] none
      (by decide) (by decide) (by decide)).2.2.2.1⟩

end Registrator
